import Mathlib

/-!
Shallow embedding of the video-player control surface of
`src/client/src/pages/video-player.tsx` and verification of its
behavioural contract.

The component is a single React function component.  Its state is a
record of `useState` hooks (lines 7-16); every event handler is a pure
update of that record plus, for handlers that touch the native media
element, an update of the element's mirrored fields and a list of
commands issued against the element (`play()`, `pause()`, `load()`).
Asynchronous platform requests (`play()`, `requestFullscreen()`,
`exitFullscreen()`) are modelled by passing the request's outcome
(resolved or rejected) as a boolean parameter to the handler, and the
handler's reaction to a rejection is exactly what the source does with
it (a `.catch` callback, a `try`/`catch` block, or nothing at all).
`console.error` calls are modelled as an emitted list of log entries.

React semantics captured here:
  - the `useEffect` on `[isPlaying]` (lines 184-188) re-runs after any
    handler that changes `isPlaying`, setting `showControls` to true
    when the new value is false; `stepPlayingEffect` applies it after
    every event;
  - the auto-hide timeout callback (lines 129-133) closes over the
    `isPlaying` value of the render in which `showControlsTemporarily`
    was created (its `useCallback` dependency list, line 135), so the
    timer slot stores the captured value, not a pointer to live state;
  - a `timerFires` event stands for the 3000 ms timeout elapsing with
    no intervening pointer-move or touch-start activity: any activity
    replaces the timer slot (lines 126-128), so a pending timer fires
    exactly when no activity occurred for the full delay.
-/

namespace VideoPlayer

/-- The native media element's fields read or written by the component
(`videoRef.current`).  Times and volumes are rationals standing for the
JS numbers involved; no float rounding affects the properties proved. -/
structure MediaElement where
  currentTime : ℚ
  duration : ℚ
  volume : ℚ
  muted : Bool
deriving DecidableEq

/-- The single auto-hide timer slot (lines 16, 124-135).  The timeout
callback `() => { if (isPlaying) setShowControls(false) }` closes over
the `isPlaying` of the render that created it, stored here. -/
structure AutoHideTimer where
  capturedIsPlaying : Bool
deriving DecidableEq

/-- The component's `useState` hooks, lines 7-16, plus the attached
media element (`videoRef.current`, `none` when the ref is null). -/
structure PlayerState where
  isLoading : Bool
  hasError : Bool
  isPlaying : Bool
  isMuted : Bool
  currentTime : ℚ
  duration : ℚ
  volume : ℚ
  isFullscreen : Bool
  showControls : Bool
  controlsTimeoutSlot : Option AutoHideTimer
  elem : Option MediaElement
deriving DecidableEq

/-- Commands the handlers issue against the native media element. -/
inductive ElemCmd
  | play
  | pause
  | load
deriving DecidableEq

/-- `console.error` sinks reachable from the handlers (lines 104, 111). -/
inductive LogEntry
  | fullscreenEnterError
  | fullscreenExitError
deriving DecidableEq

/-- Initial hook values (lines 7-16): loading, muted, volume 1, no
timer.  `showControls` is true because the effect on `[isPlaying]`
(lines 184-188) runs once after mount and `isPlaying` starts false. -/
def initialState (e : Option MediaElement) : PlayerState :=
  { isLoading := true
    hasError := false
    isPlaying := false
    isMuted := true
    currentTime := 0
    duration := 0
    volume := 1
    isFullscreen := false
    showControls := true
    controlsTimeoutSlot := none
    elem := e }

/-- `handleLoadStart`, lines 24-27. -/
def handleLoadStart (s : PlayerState) : PlayerState :=
  { s with isLoading := true, hasError := false }

/-- `handleCanPlay`, lines 29-39: clear loading; if the element is
attached, mirror its duration and attempt autoplay.  `playOk` is the
outcome of the `play()` promise; its rejection is caught (lines 34-37)
and sets the error flag. -/
def handleCanPlay (s : PlayerState) (playOk : Bool) :
    PlayerState × List ElemCmd :=
  let s1 := { s with isLoading := false }
  match s.elem with
  | none => (s1, [])
  | some e =>
      let s2 := { s1 with duration := e.duration }
      if playOk then (s2, [ElemCmd.play])
      else ({ s2 with hasError := true, isLoading := false }, [ElemCmd.play])

/-- `handleError`, lines 41-44. -/
def handleError (s : PlayerState) : PlayerState :=
  { s with isLoading := false, hasError := true }

/-- `handlePlay`, lines 46-48. -/
def handlePlay (s : PlayerState) : PlayerState :=
  { s with isPlaying := true }

/-- `handlePause`, lines 50-52. -/
def handlePause (s : PlayerState) : PlayerState :=
  { s with isPlaying := false }

/-- `handleTimeUpdate`, lines 54-58: mirror the element's current time. -/
def handleTimeUpdate (s : PlayerState) : PlayerState :=
  match s.elem with
  | none => s
  | some e => { s with currentTime := e.currentTime }

/-- `togglePlayPause`, lines 60-68: issue `pause()` or `play()` against
the element based on `isPlaying`.  The `play()` on line 65 carries no
rejection handler, so the promise outcome `playOk` influences nothing:
no state change and no log on rejection. -/
def togglePlayPause (s : PlayerState) (playOk : Bool) :
    PlayerState × List ElemCmd × List LogEntry :=
  match s.elem with
  | none => (s, [], [])
  | some _ =>
      if s.isPlaying then (s, [ElemCmd.pause], [])
      else
        let _ := playOk
        (s, [ElemCmd.play], [])

/-- `toggleMute`, lines 70-75: flip the element's `muted` and mirror
the element's new value into `isMuted`. -/
def toggleMute (s : PlayerState) : PlayerState :=
  match s.elem with
  | none => s
  | some e =>
      { s with elem := some { e with muted := !e.muted }, isMuted := !e.muted }

/-- `handleVolumeChange`, lines 77-85: store the new volume, and if the
element is attached set its volume, unmute it and mirror `isMuted`. -/
def handleVolumeChange (s : PlayerState) (v : ℚ) : PlayerState :=
  let s1 := { s with volume := v }
  match s.elem with
  | none => s1
  | some e =>
      { s1 with elem := some { e with volume := v, muted := false },
                isMuted := false }

/-- `handleSeek`, lines 87-94: from the click's `clientX` and the
progress bar's bounding rectangle, compute `progress = clickX / width`
and set the element's `currentTime` to `progress * duration` (the
stored React `duration`).  No clamping of the fraction is performed. -/
def handleSeek (s : PlayerState) (clientX rectLeft rectWidth : ℚ) :
    PlayerState :=
  match s.elem with
  | none => s
  | some e =>
      let clickX := clientX - rectLeft
      let progress := clickX / rectWidth
      { s with elem := some { e with currentTime := progress * s.duration } }

/-- `toggleFullscreen`, lines 96-114.  `fsActive` is
`document.fullscreenElement` truthiness; `opOk` is the outcome of the
awaited platform request.  On rejection the `catch` logs and leaves the
state untouched; `isFullscreen` is set only after success. -/
def toggleFullscreen (s : PlayerState) (fsActive opOk : Bool) :
    PlayerState × List LogEntry :=
  if !fsActive then
    if opOk then ({ s with isFullscreen := true }, [])
    else (s, [LogEntry.fullscreenEnterError])
  else
    if opOk then ({ s with isFullscreen := false }, [])
    else (s, [LogEntry.fullscreenExitError])

/-- `handleRetry`, lines 116-122: clear the error flag, re-enter
loading, and reissue `load()` on the element when attached. -/
def handleRetry (s : PlayerState) : PlayerState × List ElemCmd :=
  let s1 := { s with hasError := false, isLoading := true }
  match s.elem with
  | none => (s1, [])
  | some _ => (s1, [ElemCmd.load])

/-- `showControlsTemporarily`, lines 124-135: show the controls, clear
any pending timer, and arm a fresh 3000 ms timer whose callback closes
over the current `isPlaying`. -/
def showControlsTemporarily (s : PlayerState) : PlayerState :=
  { s with showControls := true,
           controlsTimeoutSlot := some { capturedIsPlaying := s.isPlaying } }

/-- Timer delay, line 133. -/
def controlsHideDelayMs : ℕ := 3000

/-- The armed timeout firing (callback of lines 129-133): hide the
controls only if the captured `isPlaying` was true; the fired handle is
spent. -/
def fireControlsTimeout (s : PlayerState) : PlayerState :=
  match s.controlsTimeoutSlot with
  | none => s
  | some t =>
      { s with controlsTimeoutSlot := none,
               showControls := if t.capturedIsPlaying then false
                               else s.showControls }

/-- Keyboard codes distinguished by the `switch` of lines 141-164. -/
inductive KeyCode
  | space
  | keyM
  | keyF
  | arrowLeft
  | arrowRight
  | other
deriving DecidableEq

/-- `ArrowLeft` branch, lines 153-157: `currentTime = max(0, t - 10)`
on the element. -/
def arrowLeftSeek (s : PlayerState) : PlayerState :=
  match s.elem with
  | none => s
  | some e =>
      { s with elem := some { e with currentTime := max 0 (e.currentTime - 10) } }

/-- `ArrowRight` branch, lines 158-162: `currentTime = min(duration,
t + 10)` on the element, with `duration` the stored React value. -/
def arrowRightSeek (s : PlayerState) : PlayerState :=
  match s.elem with
  | none => s
  | some e =>
      { s with elem := some { e with currentTime := min s.duration (e.currentTime + 10) } }

/-- `handleKeyDown`, lines 141-164.  `playOk` feeds the `Space` branch's
`togglePlayPause`; `fsActive` and `fsOk` feed the `KeyF` branch's
`toggleFullscreen`. -/
def handleKeyDown (s : PlayerState) (code : KeyCode)
    (playOk fsActive fsOk : Bool) :
    PlayerState × List ElemCmd × List LogEntry :=
  match code with
  | KeyCode.space => togglePlayPause s playOk
  | KeyCode.keyM => (toggleMute s, [], [])
  | KeyCode.keyF =>
      let p := toggleFullscreen s fsActive fsOk
      (p.1, [], p.2)
  | KeyCode.arrowLeft => (arrowLeftSeek s, [], [])
  | KeyCode.arrowRight => (arrowRightSeek s, [], [])
  | KeyCode.other => (s, [], [])

/-- Overlay visibility as rendered, line 258: the controls layer is
shown when `showControls || !isPlaying`. -/
def controlsVisible (s : PlayerState) : Bool :=
  s.showControls || !s.isPlaying

/-- `progressPercentage`, line 198. -/
def progressPercentage (s : PlayerState) : ℚ :=
  if s.duration > 0 then s.currentTime / s.duration * 100 else 0

/-- One event hitting the component: a native media event, a user
command, or the auto-hide timer firing. -/
inductive Event
  | loadStart
  | canPlay (playOk : Bool)
  | mediaError
  | play
  | pause
  | timeUpdate
  | userTogglePlayPause (playOk : Bool)
  | userToggleMute
  | userVolumeChange (v : ℚ)
  | userSeek (clientX rectLeft rectWidth : ℚ)
  | userKeyDown (code : KeyCode) (playOk fsActive fsOk : Bool)
  | userToggleFullscreen (fsActive opOk : Bool)
  | userRetry
  | pointerMove
  | touchStart
  | timerFires
deriving DecidableEq

/-- Events originating from the user rather than from the media element
or a timer. -/
def isUserCommand : Event → Bool
  | Event.userTogglePlayPause _ => true
  | Event.userToggleMute => true
  | Event.userVolumeChange _ => true
  | Event.userSeek _ _ _ => true
  | Event.userKeyDown _ _ _ _ => true
  | Event.userToggleFullscreen _ _ => true
  | Event.userRetry => true
  | Event.pointerMove => true
  | Event.touchStart => true
  | _ => false

/-- Dispatch an event to its handler, keeping only the state component. -/
def rawStep (s : PlayerState) : Event → PlayerState
  | Event.loadStart => handleLoadStart s
  | Event.canPlay ok => (handleCanPlay s ok).1
  | Event.mediaError => handleError s
  | Event.play => handlePlay s
  | Event.pause => handlePause s
  | Event.timeUpdate => handleTimeUpdate s
  | Event.userTogglePlayPause ok => (togglePlayPause s ok).1
  | Event.userToggleMute => toggleMute s
  | Event.userVolumeChange v => handleVolumeChange s v
  | Event.userSeek cx rl rw => handleSeek s cx rl rw
  | Event.userKeyDown code p a o => (handleKeyDown s code p a o).1
  | Event.userToggleFullscreen a o => (toggleFullscreen s a o).1
  | Event.userRetry => (handleRetry s).1
  | Event.pointerMove => showControlsTemporarily s
  | Event.touchStart => showControlsTemporarily s
  | Event.timerFires => fireControlsTimeout s

/-- The effect on `[isPlaying]`, lines 184-188: after a render in which
`isPlaying` changed to false, `showControls` is set to true. -/
def stepPlayingEffect (old new : PlayerState) : PlayerState :=
  if old.isPlaying && !new.isPlaying then { new with showControls := true }
  else new

/-- One run-to-completion event dispatch: the handler followed by the
re-run of the `[isPlaying]` effect. -/
def step (s : PlayerState) (ev : Event) : PlayerState :=
  stepPlayingEffect s (rawStep s ev)

/-- A whole event sequence from a given state. -/
def run (s : PlayerState) (evs : List Event) : PlayerState :=
  evs.foldl step s

/-! Projection lemmas: which state fields each handler can touch. -/

@[simp] theorem stepPlayingEffect_isLoading (a b : PlayerState) :
    (stepPlayingEffect a b).isLoading = b.isLoading := by
  unfold stepPlayingEffect; split <;> rfl

@[simp] theorem stepPlayingEffect_hasError (a b : PlayerState) :
    (stepPlayingEffect a b).hasError = b.hasError := by
  unfold stepPlayingEffect; split <;> rfl

@[simp] theorem stepPlayingEffect_isPlaying (a b : PlayerState) :
    (stepPlayingEffect a b).isPlaying = b.isPlaying := by
  unfold stepPlayingEffect; split <;> rfl

@[simp] theorem togglePlayPause_fst (s : PlayerState) (ok : Bool) :
    (togglePlayPause s ok).1 = s := by
  unfold togglePlayPause
  cases s.elem with
  | none => rfl
  | some e => dsimp; split <;> rfl

@[simp] theorem handleCanPlay_fst_isLoading (s : PlayerState) (ok : Bool) :
    (handleCanPlay s ok).1.isLoading = false := by
  unfold handleCanPlay; cases s.elem <;> cases ok <;> rfl

@[simp] theorem handleTimeUpdate_isLoading (s : PlayerState) :
    (handleTimeUpdate s).isLoading = s.isLoading := by
  unfold handleTimeUpdate; cases s.elem <;> rfl

@[simp] theorem handleTimeUpdate_hasError (s : PlayerState) :
    (handleTimeUpdate s).hasError = s.hasError := by
  unfold handleTimeUpdate; cases s.elem <;> rfl

@[simp] theorem toggleMute_isLoading (s : PlayerState) :
    (toggleMute s).isLoading = s.isLoading := by
  unfold toggleMute; cases s.elem <;> rfl

@[simp] theorem toggleMute_hasError (s : PlayerState) :
    (toggleMute s).hasError = s.hasError := by
  unfold toggleMute; cases s.elem <;> rfl

@[simp] theorem toggleMute_volume (s : PlayerState) :
    (toggleMute s).volume = s.volume := by
  unfold toggleMute; cases s.elem <;> rfl

@[simp] theorem handleVolumeChange_isLoading (s : PlayerState) (v : ℚ) :
    (handleVolumeChange s v).isLoading = s.isLoading := by
  unfold handleVolumeChange; cases s.elem <;> rfl

@[simp] theorem handleVolumeChange_hasError (s : PlayerState) (v : ℚ) :
    (handleVolumeChange s v).hasError = s.hasError := by
  unfold handleVolumeChange; cases s.elem <;> rfl

@[simp] theorem handleSeek_isLoading (s : PlayerState) (cx rl rw : ℚ) :
    (handleSeek s cx rl rw).isLoading = s.isLoading := by
  unfold handleSeek; cases s.elem <;> rfl

@[simp] theorem handleSeek_hasError (s : PlayerState) (cx rl rw : ℚ) :
    (handleSeek s cx rl rw).hasError = s.hasError := by
  unfold handleSeek; cases s.elem <;> rfl

@[simp] theorem toggleFullscreen_fst_isLoading (s : PlayerState) (a o : Bool) :
    (toggleFullscreen s a o).1.isLoading = s.isLoading := by
  unfold toggleFullscreen; cases a <;> cases o <;> rfl

@[simp] theorem toggleFullscreen_fst_hasError (s : PlayerState) (a o : Bool) :
    (toggleFullscreen s a o).1.hasError = s.hasError := by
  unfold toggleFullscreen; cases a <;> cases o <;> rfl

@[simp] theorem arrowLeftSeek_isLoading (s : PlayerState) :
    (arrowLeftSeek s).isLoading = s.isLoading := by
  unfold arrowLeftSeek; cases s.elem <;> rfl

@[simp] theorem arrowLeftSeek_hasError (s : PlayerState) :
    (arrowLeftSeek s).hasError = s.hasError := by
  unfold arrowLeftSeek; cases s.elem <;> rfl

@[simp] theorem arrowRightSeek_isLoading (s : PlayerState) :
    (arrowRightSeek s).isLoading = s.isLoading := by
  unfold arrowRightSeek; cases s.elem <;> rfl

@[simp] theorem arrowRightSeek_hasError (s : PlayerState) :
    (arrowRightSeek s).hasError = s.hasError := by
  unfold arrowRightSeek; cases s.elem <;> rfl

@[simp] theorem handleKeyDown_fst_isLoading (s : PlayerState) (code : KeyCode)
    (p a o : Bool) : (handleKeyDown s code p a o).1.isLoading = s.isLoading := by
  cases code <;> simp [handleKeyDown]

@[simp] theorem handleKeyDown_fst_hasError (s : PlayerState) (code : KeyCode)
    (p a o : Bool) : (handleKeyDown s code p a o).1.hasError = s.hasError := by
  cases code <;> simp [handleKeyDown]

@[simp] theorem handleRetry_fst_hasError (s : PlayerState) :
    (handleRetry s).1.hasError = false := by
  unfold handleRetry; cases s.elem <;> rfl

@[simp] theorem handleRetry_fst_isLoading (s : PlayerState) :
    (handleRetry s).1.isLoading = true := by
  unfold handleRetry; cases s.elem <;> rfl

@[simp] theorem fireControlsTimeout_isLoading (s : PlayerState) :
    (fireControlsTimeout s).isLoading = s.isLoading := by
  unfold fireControlsTimeout; cases s.controlsTimeoutSlot <;> rfl

@[simp] theorem fireControlsTimeout_hasError (s : PlayerState) :
    (fireControlsTimeout s).hasError = s.hasError := by
  unfold fireControlsTimeout; cases s.controlsTimeoutSlot <;> rfl

@[simp] theorem fireControlsTimeout_isPlaying (s : PlayerState) :
    (fireControlsTimeout s).isPlaying = s.isPlaying := by
  unfold fireControlsTimeout; cases s.controlsTimeoutSlot <;> rfl

/-- No single event can produce a state with the loading and error
flags both set. -/
theorem step_keeps_flags_exclusive (s : PlayerState) (ev : Event)
    (h : (s.isLoading && s.hasError) = false) :
    ((step s ev).isLoading && (step s ev).hasError) = false := by
  cases ev <;>
    simp_all [step, rawStep, handleLoadStart, handleError, handlePlay,
      handlePause, showControlsTemporarily]

/-- The loading/error exclusion is invariant under whole event runs. -/
theorem run_keeps_flags_exclusive (s : PlayerState) (evs : List Event)
    (h : (s.isLoading && s.hasError) = false) :
    ((run s evs).isLoading && (run s evs).hasError) = false := by
  induction evs generalizing s with
  | nil => exact h
  | cons ev rest ih => exact ih (step s ev) (step_keeps_flags_exclusive s ev h)

/-! Concrete fixtures used by counterexamples and witnesses. -/

/-- A concrete attached media element. -/
def elem0 : MediaElement :=
  { currentTime := 0, duration := 120, volume := 1, muted := true }

/-- The state reached by loading, a successful autoplay, the native
play event, and then a media error during playback. -/
def erroredWhilePlaying : PlayerState :=
  run (initialState (some elem0))
    [Event.loadStart, Event.canPlay true, Event.play, Event.mediaError]

/-- Claim C1 counterexample: after loading, a successful autoplay, the
native play event and then a media error during playback, the state is
marked Errored (`hasError = true`) while still marked Playing
(`isPlaying = true`): `handleError` (lines 41-44) never clears the
`isPlaying` flag, so the state is simultaneously Playing and Errored,
contradicting the claim. -/
theorem onError_while_playing_counterexample :
    erroredWhilePlaying.hasError = true
    ∧ erroredWhilePlaying.isPlaying = true := by
  exact ⟨rfl, rfl⟩

/-- Claim C1 (amended): along every event run from the initial state
the `isLoading` and `hasError` flags are never both set, so Loading and
Errored are mutually exclusive; however `onError` sets the error flag
and clears loading while leaving the `isPlaying` flag exactly as it
was, so an error arriving during playback leaves the player still
marked Playing alongside Errored. -/
theorem flags_invariant_and_onError_amended
    (e : Option MediaElement) (evs : List Event) :
    (((run (initialState e) evs).isLoading
        && (run (initialState e) evs).hasError) = false)
    ∧ (∀ s : PlayerState,
        (handleError s).hasError = true
        ∧ (handleError s).isLoading = false
        ∧ (handleError s).isPlaying = s.isPlaying) := by
  refine ⟨run_keeps_flags_exclusive _ _ rfl, ?_⟩
  intro s
  exact ⟨rfl, rfl, rfl⟩

/-- Claim C2: when `onCanPlay` fires in phase Loading with the element
attached, the loading flag is cleared, the duration is mirrored from
the element, and autoplay is attempted; a rejected play() promise sets
the error flag (surfaced, not swallowed), while a resolved one leaves
the error flag as it was. -/
theorem canPlay_clears_loading_and_surfaces_autoplay_rejection
    (s : PlayerState) (e : MediaElement)
    (_hl : s.isLoading = true) (he : s.elem = some e) :
    ((handleCanPlay s false).1.isLoading = false
      ∧ (handleCanPlay s false).1.duration = e.duration
      ∧ (handleCanPlay s false).1.hasError = true
      ∧ ElemCmd.play ∈ (handleCanPlay s false).2)
    ∧ ((handleCanPlay s true).1.isLoading = false
      ∧ (handleCanPlay s true).1.duration = e.duration
      ∧ (handleCanPlay s true).1.hasError = s.hasError
      ∧ ElemCmd.play ∈ (handleCanPlay s true).2) := by
  simp [handleCanPlay, he]

/-- Witness for C2 at the freshly mounted loading state. -/
theorem canPlay_clears_loading_witness :
    ((handleCanPlay (initialState (some elem0)) false).1.isLoading = false
      ∧ (handleCanPlay (initialState (some elem0)) false).1.duration = elem0.duration
      ∧ (handleCanPlay (initialState (some elem0)) false).1.hasError = true
      ∧ ElemCmd.play ∈ (handleCanPlay (initialState (some elem0)) false).2)
    ∧ ((handleCanPlay (initialState (some elem0)) true).1.isLoading = false
      ∧ (handleCanPlay (initialState (some elem0)) true).1.duration = elem0.duration
      ∧ (handleCanPlay (initialState (some elem0)) true).1.hasError
          = (initialState (some elem0)).hasError
      ∧ ElemCmd.play ∈ (handleCanPlay (initialState (some elem0)) true).2) :=
  canPlay_clears_loading_and_surfaces_autoplay_rejection
    (initialState (some elem0)) elem0 rfl rfl

/-- Claim C3: from a state with the error flag set and the element
attached, `handleRetry` clears the error flag, re-enters Loading, and
reissues the element's `load()`; and no other user command clears the
error flag, so retry is the only user-level recovery path. -/
theorem retry_clears_error_reloads_and_is_only_recovery
    (s : PlayerState) (e : MediaElement)
    (hErr : s.hasError = true) (he : s.elem = some e) :
    ((handleRetry s).1.hasError = false
      ∧ (handleRetry s).1.isLoading = true
      ∧ (handleRetry s).2 = [ElemCmd.load])
    ∧ (∀ ev : Event, isUserCommand ev = true → ev ≠ Event.userRetry →
        (step s ev).hasError = true) := by
  constructor
  · refine ⟨handleRetry_fst_hasError s, handleRetry_fst_isLoading s, ?_⟩
    simp [handleRetry, he]
  · intro ev hu hne
    cases ev <;> first
      | exact absurd rfl hne
      | simp_all [step, rawStep, isUserCommand, showControlsTemporarily]

/-- The state reached by loading, successful autoplay, pointer activity
while still paused (arming the timer with captured `isPlaying = false`),
then the native play event, then the timer firing with no further
activity. -/
def staleTimerRun : PlayerState :=
  run (initialState (some elem0))
    [Event.loadStart, Event.canPlay true, Event.pointerMove, Event.play,
     Event.timerFires]

/-- A concrete Errored state with the element attached. -/
def erroredState : PlayerState :=
  { initialState (some elem0) with isLoading := false, hasError := true }

/-- Witness for C3: retry from a concrete Errored state, and a sample
non-retry user command (mute) leaving the error flag set. -/
theorem retry_clears_error_witness :
    (handleRetry erroredState).1.hasError = false
    ∧ (handleRetry erroredState).1.isLoading = true
    ∧ (handleRetry erroredState).2 = [ElemCmd.load]
    ∧ (step erroredState Event.userToggleMute).hasError = true := by
  have h := retry_clears_error_reloads_and_is_only_recovery erroredState elem0
    rfl rfl
  exact ⟨h.1.1, h.1.2.1, h.1.2.2, h.2 Event.userToggleMute rfl (by decide)⟩

/-- Claim C4 counterexample: in `staleTimerRun` the last pointer
activity armed the timer while the player was paused, then playback
started and the timer fired after its full 3000 ms with no further
activity — yet the overlay is still visible while Playing, because the
timeout callback acts on the `isPlaying` it captured when armed (false)
rather than the live value.  `controlsTimeoutSlot = none` records that
the pending timer did fire. -/
theorem stale_timer_counterexample :
    staleTimerRun.isPlaying = true
    ∧ staleTimerRun.controlsTimeoutSlot = none
    ∧ controlsVisible staleTimerRun = true := by
  exact ⟨rfl, rfl, rfl⟩

/-- Claim C4 (amended): whenever the player is not Playing the rendered
overlay is visible, before and after any timer fires; a firing timer
hides the `showControls` flag exactly when the `isPlaying` it captured
at arming time was true; hence the overlay goes invisible on fire
precisely when the timer was armed during playback and the player is
still Playing at fire time — a timer armed while paused never hides the
overlay, even if the player is Playing when it fires; and every pointer
or touch activity shows the controls and re-arms the single timer slot
with the current `isPlaying` captured. -/
theorem overlay_visibility_amended :
    (∀ s : PlayerState, s.isPlaying = false →
        controlsVisible s = true
        ∧ controlsVisible (fireControlsTimeout s) = true)
    ∧ (∀ (s : PlayerState) (t : AutoHideTimer), s.controlsTimeoutSlot = some t →
        (fireControlsTimeout s).showControls
          = (if t.capturedIsPlaying then false else s.showControls))
    ∧ (∀ (s : PlayerState) (t : AutoHideTimer), s.controlsTimeoutSlot = some t →
        t.capturedIsPlaying = true → s.isPlaying = true →
        controlsVisible (fireControlsTimeout s) = false)
    ∧ (∀ s : PlayerState,
        (showControlsTemporarily s).showControls = true
        ∧ (showControlsTemporarily s).controlsTimeoutSlot
            = some { capturedIsPlaying := s.isPlaying }) := by
  refine ⟨?_, ?_, ?_, ?_⟩
  · intro s h
    constructor <;> simp [controlsVisible, h]
  · intro s t ht
    simp [fireControlsTimeout, ht]
  · intro s t ht hc hp
    simp [controlsVisible, fireControlsTimeout, ht, hc, hp]
  · intro s
    exact ⟨rfl, rfl⟩

/-- A concrete Playing state whose timer was armed during playback. -/
def playingWithTimer : PlayerState :=
  { initialState (some elem0) with
      isLoading := false, isPlaying := true,
      controlsTimeoutSlot := some { capturedIsPlaying := true } }

/-- Witness for C4 (amended): a timer armed while Playing does hide the
overlay when it fires during playback. -/
theorem overlay_visibility_witness :
    controlsVisible (fireControlsTimeout playingWithTimer) = false :=
  overlay_visibility_amended.2.2.1 playingWithTimer
    { capturedIsPlaying := true } rfl rfl rfl

/-- Claim C5: a progress-bar click sets the element's `currentTime` to
the pointer fraction (offset over width) times the stored duration,
with no clamping of the fraction. -/
theorem seek_sets_fraction_times_duration (s : PlayerState)
    (e : MediaElement) (clientX rectLeft rectWidth : ℚ)
    (he : s.elem = some e) (_hw : 0 < rectWidth) :
    (handleSeek s clientX rectLeft rectWidth).elem
      = some { e with
                currentTime := (clientX - rectLeft) / rectWidth * s.duration } := by
  simp [handleSeek, he]

/-- A ready state with a known duration of 120 seconds. -/
def seekState : PlayerState :=
  { initialState (some elem0) with isLoading := false, duration := 120 }

/-- Witness for C5: with duration 120, a click at the exact midpoint of
a bar of width 100 starting at offset 0 seeks to 60 seconds. -/
theorem seek_midpoint_witness :
    (handleSeek seekState 50 0 100).elem
      = some { elem0 with currentTime := 60 } := by
  have h := seek_sets_fraction_times_duration seekState elem0 50 0 100 rfl
    (by norm_num)
  rw [h]
  norm_num [seekState, elem0]

/-- Claim C6: the Right-arrow key sets the element's time to
`min duration (t + 10)` and the Left-arrow key to `max 0 (t - 10)`,
clamping keyboard seeks to the known range. -/
theorem arrow_keys_seek_clamped (s : PlayerState) (e : MediaElement)
    (playOk fsActive fsOk : Bool) (he : s.elem = some e) :
    (handleKeyDown s KeyCode.arrowRight playOk fsActive fsOk).1.elem
      = some { e with currentTime := min s.duration (e.currentTime + 10) }
    ∧ (handleKeyDown s KeyCode.arrowLeft playOk fsActive fsOk).1.elem
      = some { e with currentTime := max 0 (e.currentTime - 10) } := by
  constructor <;> simp [handleKeyDown, arrowRightSeek, arrowLeftSeek, he]

/-- A state at 115 of 120 seconds. -/
def nearEndState : PlayerState :=
  { initialState (some { elem0 with currentTime := 115 }) with
      isLoading := false, duration := 120 }

/-- Witness for C6: Right-arrow at t = 115, duration = 120 lands on
120, not 125. -/
theorem arrow_right_near_end_witness :
    (handleKeyDown nearEndState KeyCode.arrowRight false false false).1.elem
      = some { elem0 with currentTime := 120 } := by
  have h := (arrow_keys_seek_clamped nearEndState
    { elem0 with currentTime := 115 } false false false rfl).1
  rw [h]
  norm_num [nearEndState, elem0]

/-- Claim C7: with the element attached, `setVolume (1/2)` then two
`toggleMute` calls leaves the player unmuted with the stored volume
still 1/2 (and the element unmuted at volume 1/2); `toggleMute` never
changes the stored volume; and any explicit volume change unmutes. -/
theorem mute_independent_of_volume (s : PlayerState) (e : MediaElement)
    (he : s.elem = some e) :
    ((toggleMute (toggleMute (handleVolumeChange s (1/2)))).isMuted = false
      ∧ (toggleMute (toggleMute (handleVolumeChange s (1/2)))).volume = 1/2
      ∧ (toggleMute (toggleMute (handleVolumeChange s (1/2)))).elem
          = some { e with volume := 1/2, muted := false })
    ∧ (∀ s2 : PlayerState, (toggleMute s2).volume = s2.volume)
    ∧ (∀ (s2 : PlayerState) (e2 : MediaElement) (v : ℚ),
        s2.elem = some e2 → (handleVolumeChange s2 v).isMuted = false) := by
  refine ⟨?_, ?_, ?_⟩
  · simp [handleVolumeChange, toggleMute, he]
  · intro s2
    exact toggleMute_volume s2
  · intro s2 e2 v he2
    simp [handleVolumeChange, he2]

/-- Witness for C7 at the mounted state. -/
theorem mute_independent_of_volume_witness :
    (toggleMute (toggleMute (handleVolumeChange (initialState (some elem0)) (1/2)))).isMuted
        = false
    ∧ (toggleMute (toggleMute (handleVolumeChange (initialState (some elem0)) (1/2)))).volume
        = 1/2 := by
  have h := mute_independent_of_volume (initialState (some elem0)) elem0 rfl
  exact ⟨h.1.1, h.1.2.1⟩

/-- Claim C8: a rejected fullscreen request or exit is caught, emits
exactly one log entry, and leaves the whole component state unchanged
(so `isFullscreen` and every playback flag keep their values); on
success `isFullscreen` alone is updated to the new mode and nothing is
logged. -/
theorem fullscreen_rejection_logged_state_unchanged
    (s : PlayerState) (fsActive : Bool) :
    ((toggleFullscreen s fsActive false).1 = s
      ∧ (toggleFullscreen s fsActive false).2
          = [if fsActive then LogEntry.fullscreenExitError
             else LogEntry.fullscreenEnterError])
    ∧ (toggleFullscreen s false true).1 = { s with isFullscreen := true }
    ∧ (toggleFullscreen s true true).1 = { s with isFullscreen := false }
    ∧ (toggleFullscreen s fsActive true).2 = [] := by
  cases fsActive <;> simp [toggleFullscreen]

/-- A concrete ready, paused state with the element attached. -/
def pausedState : PlayerState :=
  { initialState (some elem0) with isLoading := false }

/-- Claim C9 counterexample: from a paused error-free state,
`togglePlayPause` issues `play()` (line 65) with no rejection handler,
so a rejected promise leaves the state bit-for-bit unchanged — the
error flag stays false — and emits no log entry: the rejection reaches
neither the state machine nor a log sink. -/
theorem togglePlayPause_rejection_dropped :
    pausedState.hasError = false
    ∧ (togglePlayPause pausedState false).1 = pausedState
    ∧ (togglePlayPause pausedState false).2.1 = [ElemCmd.play]
    ∧ (togglePlayPause pausedState false).2.2 = [] := by
  exact ⟨rfl, rfl, rfl, rfl⟩

/-- Claim C9 (amended): the autoplay `play()` of `handleCanPlay` and
both fullscreen requests consume their rejection deliberately — the
former sets the error flag, the latter log and leave the state intact —
but the `play()` issued by `togglePlayPause` is fire-and-forget: its
rejection produces no state change and no log entry. -/
theorem async_rejection_handling_amended (s : PlayerState)
    (e : MediaElement) (he : s.elem = some e) :
    (handleCanPlay s false).1.hasError = true
    ∧ (∀ fsActive : Bool,
        (toggleFullscreen s fsActive false).1 = s
        ∧ (toggleFullscreen s fsActive false).2
            = [if fsActive then LogEntry.fullscreenExitError
               else LogEntry.fullscreenEnterError])
    ∧ (s.isPlaying = false →
        (togglePlayPause s false).1 = s
        ∧ (togglePlayPause s false).2.1 = [ElemCmd.play]
        ∧ (togglePlayPause s false).2.2 = []) := by
  refine ⟨?_, ?_, ?_⟩
  · simp [handleCanPlay, he]
  · intro fsActive
    cases fsActive <;> simp [toggleFullscreen]
  · intro hp
    refine ⟨togglePlayPause_fst s false, ?_, ?_⟩ <;>
      simp [togglePlayPause, he, hp]

/-- Witness for C9 (amended) at the paused state. -/
theorem async_rejection_handling_witness :
    (handleCanPlay pausedState false).1.hasError = true
    ∧ (togglePlayPause pausedState false).1 = pausedState
    ∧ (togglePlayPause pausedState false).2.2 = [] := by
  have h := async_rejection_handling_amended pausedState elem0 rfl
  exact ⟨h.1, (h.2.2 rfl).1, (h.2.2 rfl).2.2⟩

/-- Claim C10: while the stored duration is not yet positive the
rendered progress percentage is 0 (the guard on line 198 avoids the
division), and with duration exactly 0 a progress-bar click sets the
element's time to `fraction * 0 = 0` for every pointer position. -/
theorem zero_duration_division_safe (s : PlayerState) (e : MediaElement)
    (clientX rectLeft rectWidth : ℚ)
    (he : s.elem = some e) (_hw : 0 < rectWidth) :
    (s.duration ≤ 0 → progressPercentage s = 0)
    ∧ (s.duration = 0 →
        (handleSeek s clientX rectLeft rectWidth).elem
          = some { e with currentTime := 0 }) := by
  constructor
  · intro hd
    unfold progressPercentage
    rw [if_neg (not_lt.mpr hd)]
  · intro hd
    simp [handleSeek, he, hd]

/-- Witness for C10 at the freshly mounted state (duration still 0)
with a click far beyond the bar's right edge. -/
theorem zero_duration_division_safe_witness :
    progressPercentage (initialState (some elem0)) = 0
    ∧ (handleSeek (initialState (some elem0)) 999 0 100).elem
        = some { elem0 with currentTime := 0 } := by
  have h := zero_duration_division_safe (initialState (some elem0)) elem0
    999 0 100 rfl (by norm_num)
  exact ⟨h.1 (le_refl 0), h.2 rfl⟩

end VideoPlayer
